import Mathlib

/-!
Shallow embedding of `matrix_reminder_bot/bot_commands.py`: the time
resolution helper `_parse_str_to_time`, the command-argument grammar
(`_parse_reminder_command_args`, `_parse_reminder_command_args_for_cron`),
the reminder-creation flow `Command._remind`, the alarm silencing flow
`Command._silence` / `Command._remove_and_silence_alarm`, and the
listing flow `Command._list_reminders`.

Modelling conventions:
* Instants are whole seconds (`Int`).  The source rounds datetimes to the
  nearest second (`replace(microsecond=0)`) before comparison/display, so
  seconds granularity is the source's own working precision.
* The external `dateparser.parse` call (with `PREFER_DATES_FROM: future`,
  the configured timezone and the requested awareness) is abstracted as a
  function `dparse : String → Option Int` carried in `BotEnv`; timezone
  localization maps a naive datetime to the same instant, so at instant
  granularity it is the identity and `tz_aware` has no observable effect.
* `_get_datetime_now(CONFIG.timezone)` is the `now` field of `BotEnv`;
  inside one command invocation the model uses a single clock value.
* Python strings are Lean `String`s; `str.upper`/`str.lower`/
  `str.capitalize` are modelled on the ASCII letter range (the only range
  Lean's `Char` case functions cover, and sufficient for the claims).
* Python `dict`s are insertion-ordered association lists; `dict.get`,
  subscript assignment, and `dict.pop(key, default)` are modelled by
  `py_dict_get`, `py_dict_set`, `py_dict_pop`.
-/

namespace ReminderBot

/-! ### Python string primitives -/

/-- ASCII fragment of Python `str.upper` applied to one character:
latin lowercase letters (code points 97-122) map 32 down. -/
def py_char_upper (c : Char) : Char :=
  if 97 ≤ c.toNat ∧ c.toNat ≤ 122 then Char.ofNat (c.toNat - 32) else c

/-- ASCII fragment of Python `str.lower` applied to one character:
latin uppercase letters (code points 65-90) map 32 up. -/
def py_char_lower (c : Char) : Char :=
  if 65 ≤ c.toNat ∧ c.toNat ≤ 90 then Char.ofNat (c.toNat + 32) else c

/-- Python `str.upper` (ASCII fragment). -/
def py_upper (s : String) : String :=
  ⟨s.data.map py_char_upper⟩

/-- Python `str.lower` (ASCII fragment). -/
def py_lower (s : String) : String :=
  ⟨s.data.map py_char_lower⟩

/-- Python `str.capitalize` (ASCII fragment): first character upper-cased,
every following character lower-cased. -/
def py_capitalize (s : String) : String :=
  match s.data with
  | [] => ⟨[]⟩
  | c :: cs => ⟨py_char_upper c :: cs.map py_char_lower⟩

/-- Python `str.startswith`. -/
def py_startswith (s p : String) : Bool :=
  p.data.isPrefixOf s.data

/-- Python `str.strip()`: drop whitespace from both ends. -/
def py_strip (s : String) : String :=
  ⟨((s.data.dropWhile Char.isWhitespace).reverse.dropWhile Char.isWhitespace).reverse⟩

/-- Python `" ".join(items)`. -/
def py_join_space : List String → String
  | [] => ⟨[]⟩
  | [s] => s
  | s :: rest => s ++ " " ++ py_join_space rest

/-- Python `[n:]` slicing on a string (by characters). -/
def drop_chars (n : Nat) (s : String) : String :=
  ⟨s.data.drop n⟩

/-- Python `s.split(sep, maxsplit=1)` unpacked into exactly two variables:
the parts before and after the first occurrence of `sep`, or `none` when
`sep` does not occur (the unpacking then raises `ValueError` in the
source, which catches it). -/
def split_once (sep : Char) (s : String) : Option (String × String) :=
  match split_once_list sep s.data with
  | none => none
  | some (l, r) => some (⟨l⟩, ⟨r⟩)
where
  split_once_list (sep : Char) : List Char → Option (List Char × List Char)
    | [] => none
    | c :: cs =>
      if c = sep then some ([], cs)
      else
        match split_once_list sep cs with
        | none => none
        | some (l, r) => some (c :: l, r)

/-! ### Python dict primitives (insertion-ordered association lists) -/

/-- Python `d.get(k)` / `d[k]` lookup: the value bound to the first
occurrence of the key. -/
def py_dict_get {α β : Type} [DecidableEq α] : List (α × β) → α → Option β
  | [], _ => none
  | (k', v) :: rest, k => if k' = k then some v else py_dict_get rest k

/-- Python `k in d`. -/
def py_dict_contains {α β : Type} [DecidableEq α] (d : List (α × β)) (k : α) : Bool :=
  (py_dict_get d k).isSome

/-- Python `d[k] = v`: overwrite in place if the key exists, else append. -/
def py_dict_set {α β : Type} [DecidableEq α] : List (α × β) → α → β → List (α × β)
  | [], k, v => [(k, v)]
  | (k', v') :: rest, k, v =>
    if k' = k then (k, v) :: rest else (k', v') :: py_dict_set rest k v

/-- Python `d.pop(k, default)`: remove the binding of `k` when present,
no error when absent. -/
def py_dict_pop {α β : Type} [DecidableEq α] : List (α × β) → α → List (α × β)
  | [], _ => []
  | (k', v') :: rest, k =>
    if k' = k then rest else (k', v') :: py_dict_pop rest k

/-! ### The time resolver -/

/-- Ambient context of one command invocation: the abstracted
`dateparser.parse` (with the source's settings), the value of
`_get_datetime_now(CONFIG.timezone)`, and `CONFIG.timezone`. -/
structure BotEnv where
  dparse : String → Option Int
  now : Int
  timezone : String

/-- The user-facing command failures of `bot_commands.py`:
`CommandError` for an unparseable time string (lines 70-71), a
`CommandError` for a past time (lines 81-82), and `CommandSyntaxError`
(the `synError` constructor) raised when a mandatory `;` is missing. -/
inductive CommandError
  | invalidTime (time_str : String)
  | pastTime (time_str : String)
  | synError
deriving DecidableEq, Repr

/-- `_parse_str_to_time` (lines 48-87).  `dateparser.parse` failing gives
the invalid-time `CommandError`; a resolved instant strictly earlier than
`_get_datetime_now(CONFIG.timezone)` (line 81 uses `<`) gives the
past-time `CommandError`; otherwise the instant is returned.  The
`tz_aware` flag only selects whether localization happens before the
comparison, which at instant granularity is the identity, so it is not a
parameter of the model. -/
def parse_str_to_time (env : BotEnv) (time_str : String) : Except CommandError Int :=
  match env.dparse time_str with
  | none => .error (.invalidTime time_str)
  | some time =>
    if time < env.now then .error (.pastTime time_str)
    else .ok time

/-! ### The command grammar -/

/-- `Command._parse_reminder_command_args_for_cron` (lines 123-145):
drop the first token (`self.args[1:]`), join with spaces, split on the
first `;` into the cron tab and the trimmed reminder text; no `;` raises
`CommandSyntaxError`. -/
def parse_reminder_command_args_for_cron (args : List String) :
    Except CommandError (String × String) :=
  let args_str := py_join_space (args.drop 1)
  match split_once ';' args_str with
  | none => .error .synError
  | some (cron_tab, reminder_text) => .ok (cron_tab, py_strip reminder_text)

/-- `Command._parse_reminder_command_args` (lines 147-203): join the
arguments, split on the first `;`, strip and lower-case the time part and
strip the text part; when the time part starts with the recurrence marker
`每`, resolve the remainder as the recurrence instant, subtract `now` to
get the recurrence delta, then split the text part again on `;` for the
start time; finally resolve the start time.  Returns
(start instant, reminder text, optional recurrence delta in seconds). -/
def parse_reminder_command_args (env : BotEnv) (args : List String) :
    Except CommandError (Int × String × Option Int) :=
  let args_str := py_join_space args
  match split_once ';' args_str with
  | none => .error .synError
  | some (time_str0, reminder_text0) =>
    let time_str := py_lower (py_strip time_str0)
    let reminder_text := py_strip reminder_text0
    if py_startswith time_str "每" then
      let recurse_time_str := py_strip (drop_chars ("每".length) time_str)
      match parse_str_to_time env recurse_time_str with
      | .error e => .error e
      | .ok recurse_time =>
        let recurse_timedelta := recurse_time - env.now
        match split_once ';' reminder_text with
        | none => .error .synError
        | some (time_str2, reminder_text2) =>
          match parse_str_to_time env time_str2 with
          | .error e => .error e
          | .ok time => .ok (time, py_strip reminder_text2, some recurse_timedelta)
    else
      match parse_str_to_time env time_str with
      | .error e => .error e
      | .ok time => .ok (time, reminder_text, none)

/-- The recurrence time expression the source feeds to the resolver for a
given argument list (the string built on lines 168-178), when the command
is of the recurring form. -/
def recurrence_expr_of (args : List String) : Option String :=
  match split_once ';' (py_join_space args) with
  | none => none
  | some (time_str0, _) =>
    let time_str := py_lower (py_strip time_str0)
    if py_startswith time_str "每" then
      some (py_strip (drop_chars ("每".length) time_str))
    else none

/-! ### Reminders and the creation flow -/

/-- The `Reminder` record (constructed on lines 293-304).  The class
itself lives in `matrix_reminder_bot/reminder.py`; the fields here are
exactly the constructor arguments passed by `Command._remind`, plus
`alarm_job`, the handle to a currently firing escalation job (read by
`Command._silence` as `reminder.alarm_job`; `none` models Python `None`).
Job handles are identified by `Nat` ids. -/
structure Reminder where
  room_id : String
  reminder_text : String
  start_time : Option Int
  timezone : String
  cron_tab : Option String
  recurse_timedelta : Option Int
  target_user : Option String
  alarm : Bool
  alarm_job : Option Nat
deriving DecidableEq, Repr

/-- The messages `Command._remind` sends to the room: the duplicate
rejection (lines 285-290) or the confirmation built by
`_confirm_reminder` (presentation detail abstracted to the reminder it
describes). -/
inductive RoomMessage
  | duplicateReminder
  | confirmation (reminder : Reminder)
deriving DecidableEq, Repr

/-- The state touched by `Command._remind`: the `REMINDERS` map keyed by
`(room_id, text.upper())`, the set of jobs armed with the scheduler, the
records written through `store.store_reminder`, and the messages sent to
the room. -/
structure RemindState where
  reminders : List ((String × String) × Reminder)
  jobs : List (String × String)
  store : List Reminder
  messages : List RoomMessage
deriving DecidableEq, Repr

/-- The outcome of the argument parsing performed at the top of
`Command._remind` (lines 258-282): either the cron route or the
human-readable route. -/
structure ParsedRemind where
  cron_tab : Option String
  start_time : Option Int
  reminder_text : String
  recurse_timedelta : Option Int
deriving DecidableEq, Repr

/-- The dispatch at the top of `Command._remind` (lines 258-282): take
the cron route when `" ".join(self.args).lower().startswith("cron")`,
else the human-readable route. -/
def remind_parse (env : BotEnv) (args : List String) : Except CommandError ParsedRemind :=
  if py_startswith (py_lower (py_join_space args)) "cron" then
    match parse_reminder_command_args_for_cron args with
    | .error e => .error e
    | .ok (cron_tab, reminder_text) =>
      .ok ⟨some cron_tab, none, reminder_text, none⟩
  else
    match parse_reminder_command_args env args with
    | .error e => .error e
    | .ok (start_time, reminder_text, recurse_timedelta) =>
      .ok ⟨none, some start_time, reminder_text, recurse_timedelta⟩

/-- `Command._remind` (lines 246-311): parse the arguments, reject a
duplicate `(room_id, reminder_text.upper())` key with a message and no
other effect, otherwise construct the `Reminder`, arm its job (done by
the `Reminder` constructor; modelled from the spec: `reminder.py` is not
under `src/`, and §4.3 says creation "arms a job via the Trigger
Scheduler" — modelled as recording the key in `jobs`), record it in
`REMINDERS`, persist it, and confirm. -/
def remind (env : BotEnv) (room_id : String) (args : List String)
    (target : Option String) (alarm : Bool) (st : RemindState) :
    Except CommandError RemindState :=
  match remind_parse env args with
  | .error e => .error e
  | .ok p =>
    if py_dict_contains st.reminders (room_id, py_upper p.reminder_text) then
      .ok { st with messages := st.messages ++ [RoomMessage.duplicateReminder] }
    else
      let reminder : Reminder :=
        { room_id := room_id
          reminder_text := p.reminder_text
          start_time := p.start_time
          timezone := env.timezone
          cron_tab := p.cron_tab
          recurse_timedelta := p.recurse_timedelta
          target_user := target
          alarm := alarm
          alarm_job := none }
      .ok { st with
        jobs := st.jobs ++ [(room_id, py_upper p.reminder_text)]
        reminders := py_dict_set st.reminders (room_id, py_upper p.reminder_text) reminder
        store := st.store ++ [reminder]
        messages := st.messages ++ [RoomMessage.confirmation reminder] }

/-! ### Silencing alarms -/

/-- Python runtime exceptions that `bot_commands.py` can raise but never
catches (an `AttributeError` from dereferencing `None`). -/
inductive PyError
  | attributeError
deriving DecidableEq, Repr

/-- The four user-facing responses of `Command._silence`
(lines 381, 389-391, 394, 414). -/
inductive SilenceMessage
  | silenced (reminder_text : String)
  | notFiring (reminder_text : String)
  | unknownAlarm (reminder_text : String)
  | noAlarmFiringInRoom
deriving DecidableEq, Repr

/-- `Command._remove_and_silence_alarm` (lines 418-425):
`ALARMS.pop((room_id, text.upper()), None)` — a pop with a default, so no
error when the key is absent — then `alarm_job.remove()` guarded by
`SCHEDULER.get_job(alarm_job.id)`, so removal happens only when the
scheduler still knows the job.  `alarm_job` being Python `None` would
raise `AttributeError` at `alarm_job.id`. -/
def remove_and_silence_alarm (room_id : String) (alarm_job : Option Nat)
    (reminder_text : String) (alarms : List ((String × String) × Reminder))
    (sched : List Nat) :
    Except PyError (List ((String × String) × Reminder) × List Nat) :=
  let alarms' := py_dict_pop alarms (room_id, py_upper reminder_text)
  match alarm_job with
  | none => .error .attributeError
  | some jid =>
    if jid ∈ sched then .ok (alarms', sched.erase jid)
    else .ok (alarms', sched)

/-- `Command._silence` (lines 369-416).  With a reminder text the source
evaluates `ALARMS.get((room_id, text.upper())).alarm_job`: when the key
is absent, `.get` yields `None` and the attribute access raises
`AttributeError`; when the entry's `alarm_job` is non-`None`, it is
removed and silenced; otherwise the known-but-not-firing or unknown
response is chosen by a `REMINDERS` lookup.  With no text, the first
`ALARMS` entry of the room (dict iteration order) is silenced under its
capitalized key text, or the no-alarm-firing response is produced.
Returns the new `ALARMS`, the new scheduler job set, and the response. -/
def silence (room_id : String) (args : List String)
    (alarms reminders : List ((String × String) × Reminder))
    (sched : List Nat) :
    Except PyError (List ((String × String) × Reminder) × List Nat × SilenceMessage) :=
  let reminder_text := py_join_space args
  if reminder_text ≠ "" then
    match py_dict_get alarms (room_id, py_upper reminder_text) with
    | none => .error .attributeError
    | some entry =>
      match entry.alarm_job with
      | some _ =>
        match remove_and_silence_alarm room_id entry.alarm_job reminder_text alarms sched with
        | .error e => .error e
        | .ok (alarms', sched') => .ok (alarms', sched', .silenced reminder_text)
      | none =>
        match py_dict_get reminders (room_id, py_upper reminder_text) with
        | some _ => .ok (alarms, sched, .notFiring reminder_text)
        | none => .ok (alarms, sched, .unknownAlarm reminder_text)
  else
    match alarms.find? (fun p => decide (p.1.1 = room_id)) with
    | some (alarm_info, entry) =>
      let reminder_text := py_capitalize alarm_info.2
      match remove_and_silence_alarm room_id entry.alarm_job reminder_text alarms sched with
      | .error e => .error e
      | .ok (alarms', sched') => .ok (alarms', sched', .silenced reminder_text)
    | none => .ok (alarms, sched, .noAlarmFiringInRoom)

/-! ### Listing reminders -/

/-- The trigger kind of a reminder's scheduled job, as `_list_reminders`
determines it by `isinstance` checks on `reminder.job.trigger`
(`DateTrigger` / `IntervalTrigger` / `CronTrigger`).  The job object is
owned by the scheduler, so the classification is a parameter of the
model. -/
inductive TriggerKind
  | date
  | interval
  | cron
deriving DecidableEq, Repr

/-- The `REMINDERS` loop of `Command._list_reminders` (lines 468-518):
skip reminders of other rooms (`continue` on line 470-471), then append
each remaining reminder to the one-shot, interval or cron section
according to its job's trigger kind. -/
def sort_room_reminders (room_id : String) (kind : Reminder → TriggerKind) :
    List Reminder → List Reminder × List Reminder × List Reminder
  | [] => ([], [], [])
  | r :: rest =>
    let sorted := sort_room_reminders room_id kind rest
    if r.room_id ≠ room_id then sorted
    else
      match kind r with
      | .date => (r :: sorted.1, sorted.2.1, sorted.2.2)
      | .interval => (sorted.1, r :: sorted.2.1, sorted.2.2)
      | .cron => (sorted.1, sorted.2.1, r :: sorted.2.2)

/-- The four sections of `Command._list_reminders` (lines 453-518): the
firing-alarms section takes every value of `ALARMS` (lines 460-465, no
room filter), the three reminder sections take the reminders of the
current room sorted by trigger kind. -/
def list_reminders_sections (room_id : String) (kind : Reminder → TriggerKind)
    (alarms reminders : List ((String × String) × Reminder)) :
    List Reminder × (List Reminder × List Reminder × List Reminder) :=
  (alarms.map (fun p => p.2),
   sort_room_reminders room_id kind (reminders.map (fun p => p.2)))

instance {ε α : Type} [DecidableEq ε] [DecidableEq α] : DecidableEq (Except ε α) := fun a b =>
  match a, b with
  | .error e1, .error e2 =>
    match decEq e1 e2 with
    | isTrue h => isTrue (h ▸ rfl)
    | isFalse h => isFalse fun hc => h (Except.error.inj hc)
  | .error _, .ok _ => isFalse fun hc => Except.noConfusion hc
  | .ok _, .error _ => isFalse fun hc => Except.noConfusion hc
  | .ok a1, .ok a2 =>
    match decEq a1 a2 with
    | isTrue h => isTrue (h ▸ rfl)
    | isFalse h => isFalse fun hc => h (Except.ok.inj hc)

/-! ### Concrete instances used by witnesses and counterexamples -/

/-- An environment whose resolver maps every expression to the instant
`100`, with `now = 100`: a resolution exactly equal to now. -/
def env_now_equal : BotEnv := ⟨fun _ => some 100, 100, "UTC"⟩

/-- An environment with `now = 100` resolving `"future"` to `500` and
everything else to `5`. -/
def env_past_future : BotEnv :=
  ⟨fun s => if s = "future" then some 500 else some 5, 100, "UTC"⟩

/-- An environment with `now = 0` resolving the recurrence expression
`"1 week"` to `now + 604800` and `"monday"` to `1000`. -/
def env_one_week : BotEnv :=
  ⟨fun s => if s = "1 week" then some 604800 else if s = "monday" then some 1000 else none,
   0, "UTC"⟩

/-- An environment whose resolver rejects every expression. -/
def env_reject : BotEnv := ⟨fun _ => none, 0, "UTC"⟩

/-- An environment with `now = 0` resolving only `"alpha"`, to `50`. -/
def env_alpha : BotEnv :=
  ⟨fun s => if s = "alpha" then some 50 else none, 0, "UTC"⟩

/-- A reminder of room `!room:x` with text `"X"`, alarm-flagged, with no
escalation job currently firing. -/
def reminder_x : Reminder := ⟨"!room:x", "X", none, "UTC", none, none, none, true, none⟩

/-- A firing alarm entry of room `!room:x` with text `"WAKE UP"` and
escalation job `7`. -/
def alarm_wake : Reminder :=
  ⟨"!room:x", "wake up", none, "UTC", none, none, none, true, some 7⟩

/-- A firing alarm entry of room `!room:x` with text `"STAND UP"` and
escalation job `8`. -/
def alarm_stand : Reminder :=
  ⟨"!room:x", "stand up", none, "UTC", none, none, none, true, some 8⟩

/-- A firing alarm entry of another room `!other:x`, escalation job `9`. -/
def alarm_other : Reminder :=
  ⟨"!other:x", "other", none, "UTC", none, none, none, true, some 9⟩

/-- A two-alarm `ALARMS` state: one alarm of another room first, then two
firing alarms of room `!room:x`. -/
def alarms_two : List ((String × String) × Reminder) :=
  [(("!other:x", "OTHER"), alarm_other),
   (("!room:x", "WAKE UP"), alarm_wake),
   (("!room:x", "STAND UP"), alarm_stand)]

/-- A trigger classification matching the spec's "exactly one trigger
descriptor variant is populated": cron when a cron tab is present,
interval when a recurrence delta is present, one-shot date otherwise. -/
def kind_by_fields (r : Reminder) : TriggerKind :=
  if r.cron_tab.isSome then .cron
  else if r.recurse_timedelta.isSome then .interval
  else .date

/-- The reminder `Command._remind` creates in room `!r` from the
command body `alpha; Buy Milk` under `env_alpha`. -/
def reminder_milk : Reminder :=
  ⟨"!r", "Buy Milk", some 50, "UTC", none, none, none, false, none⟩

/-- The state right after `reminder_milk` was created in an empty
state. -/
def state_after_create : RemindState :=
  ⟨[(("!r", "BUY MILK"), reminder_milk)], [("!r", "BUY MILK")], [reminder_milk],
   [RoomMessage.confirmation reminder_milk]⟩

/-! ### Helper lemmas -/

theorem char_toNat_ofNat {n : Nat} (h : n < 55296) : (Char.ofNat n).toNat = n := by
  have hv : n.isValidChar := Or.inl h
  rw [Char.ofNat, dif_pos hv]
  simp [Char.ofNatAux, Char.toNat, UInt32.toNat]

theorem py_char_upper_lower (c : Char) :
    py_char_upper (py_char_lower c) = py_char_upper c := by
  unfold py_char_lower py_char_upper
  by_cases h : 65 ≤ c.toNat ∧ c.toNat ≤ 90
  · rw [if_pos h]
    have h1 : (Char.ofNat (c.toNat + 32)).toNat = c.toNat + 32 :=
      char_toNat_ofNat (by omega)
    rw [h1, if_pos (by omega), if_neg (by omega)]
    have h2 : c.toNat + 32 - 32 = c.toNat := by omega
    rw [h2, Char.ofNat_toNat]
  · rw [if_neg h]

theorem py_char_upper_upper (c : Char) :
    py_char_upper (py_char_upper c) = py_char_upper c := by
  unfold py_char_upper
  by_cases h : 97 ≤ c.toNat ∧ c.toNat ≤ 122
  · rw [if_pos h]
    have h1 : (Char.ofNat (c.toNat - 32)).toNat = c.toNat - 32 :=
      char_toNat_ofNat (by omega)
    rw [h1, if_neg (by omega)]
  · rw [if_neg h, if_neg h]

theorem py_upper_capitalize (s : String) :
    py_upper (py_capitalize s) = py_upper s := by
  have hcomp : py_char_upper ∘ py_char_lower = py_char_upper :=
    funext fun c => py_char_upper_lower c
  unfold py_upper py_capitalize
  cases hd : s.data with
  | nil => simp [hd]
  | cons c cs => simp [hd, List.map_map, hcomp, py_char_upper_upper]

theorem py_lower_append (a b : String) : py_lower (a ++ b) = py_lower a ++ py_lower b := by
  apply String.ext
  simp [py_lower, String.data_append]

theorem py_startswith_append_left (s t p : String) (h : py_startswith s p = true) :
    py_startswith (s ++ t) p = true := by
  unfold py_startswith at h ⊢
  rw [String.data_append]
  rw [List.isPrefixOf_iff_prefix] at h ⊢
  exact h.trans (List.prefix_append s.data t.data)

theorem py_dict_get_set_self {α β : Type} [DecidableEq α]
    (d : List (α × β)) (k : α) (v : β) :
    py_dict_get (py_dict_set d k v) k = some v := by
  induction d with
  | nil => simp [py_dict_set, py_dict_get]
  | cons p rest ih =>
    obtain ⟨k', v'⟩ := p
    by_cases h : k' = k
    · simp [py_dict_set, py_dict_get, h]
    · simp [py_dict_set, py_dict_get, h, ih]

theorem py_dict_contains_set_self {α β : Type} [DecidableEq α]
    (d : List (α × β)) (k : α) (v : β) :
    py_dict_contains (py_dict_set d k v) k = true := by
  simp [py_dict_contains, py_dict_get_set_self]

theorem py_dict_pop_of_get_none {α β : Type} [DecidableEq α]
    (d : List (α × β)) (k : α) (h : py_dict_get d k = none) :
    py_dict_pop d k = d := by
  induction d with
  | nil => simp [py_dict_pop]
  | cons p rest ih =>
    obtain ⟨k', v'⟩ := p
    by_cases hk : k' = k
    · simp [py_dict_get, hk] at h
    · simp only [py_dict_get, if_neg hk] at h
      simp [py_dict_pop, hk, ih h]

theorem mem_py_dict_pop {α β : Type} [DecidableEq α]
    (d : List (α × β)) (k : α) (p : α × β) (hne : p.1 ≠ k) :
    p ∈ d → p ∈ py_dict_pop d k := by
  induction d with
  | nil => intro hp; simp at hp
  | cons q rest ih =>
    obtain ⟨k', v'⟩ := q
    intro hp
    rw [List.mem_cons] at hp
    rcases hp with hp | hp
    · have hk : k' ≠ k := by
        rw [hp] at hne
        exact hne
      rw [py_dict_pop, if_neg hk, hp]
      exact List.mem_cons_self _ _
    · by_cases hk : k' = k
      · rw [py_dict_pop, if_pos hk]
        exact hp
      · rw [py_dict_pop, if_neg hk]
        exact List.mem_cons_of_mem _ (ih hp)

theorem not_mem_py_dict_pop {α β : Type} [DecidableEq α]
    (d : List (α × β)) (k : α) (v : β) :
    (d.map Prod.fst).Nodup → (k, v) ∉ py_dict_pop d k := by
  induction d with
  | nil => intro _; simp [py_dict_pop]
  | cons q rest ih =>
    obtain ⟨k', v'⟩ := q
    intro hnd
    rw [List.map_cons, List.nodup_cons] at hnd
    by_cases hk : k' = k
    · rw [py_dict_pop, if_pos hk]
      intro hmem
      have hmap : k ∈ rest.map Prod.fst := List.mem_map_of_mem Prod.fst hmem
      exact (hk ▸ hnd.1) hmap
    · rw [py_dict_pop, if_neg hk]
      intro hmem
      rw [List.mem_cons] at hmem
      rcases hmem with hmem | hmem
      · exact hk (congrArg Prod.fst hmem).symm
      · exact ih hnd.2 hmem

theorem py_dict_pop_length {α β : Type} [DecidableEq α]
    (d : List (α × β)) (k : α) :
    k ∈ d.map Prod.fst → (py_dict_pop d k).length + 1 = d.length := by
  induction d with
  | nil => intro hk; simp at hk
  | cons q rest ih =>
    obtain ⟨k', v'⟩ := q
    intro hk
    by_cases h : k' = k
    · simp [py_dict_pop, h]
    · rw [List.map_cons, List.mem_cons] at hk
      rcases hk with hk | hk
      · exact absurd hk.symm h
      · simp [py_dict_pop, h, ih hk]

theorem parse_str_to_time_ne_syn (env : BotEnv) (s : String) :
    parse_str_to_time env s ≠ .error CommandError.synError := by
  unfold parse_str_to_time
  cases env.dparse s with
  | none => simp
  | some t =>
    by_cases h : t < env.now <;> simp [h]

theorem parse_str_to_time_dparse (env : BotEnv) (s : String) (t : Int)
    (h : parse_str_to_time env s = .ok t) : env.dparse s = some t := by
  unfold parse_str_to_time at h
  split at h
  · simp at h
  · rename_i time hd
    split at h
    · simp at h
    · simp only [Except.ok.injEq] at h
      rw [hd, h]

theorem recurrence_delta_eq (env : BotEnv) (args : List String)
    (time : Int) (txt : String) (d : Int)
    (h : parse_reminder_command_args env args = .ok (time, txt, some d)) :
    ∃ s r, recurrence_expr_of args = some s ∧ env.dparse s = some r ∧
      d = r - env.now := by
  unfold parse_reminder_command_args at h
  dsimp only at h
  split at h
  · simp at h
  · rename_i t0 r0 hsplit
    by_cases hstart :
        py_startswith (py_lower (py_strip t0)) "每" = true
    · rw [if_pos hstart] at h
      split at h
      · simp at h
      · rename_i rt hrt
        split at h
        · simp at h
        · rename_i t2 r2 hsplit2
          split at h
          · simp at h
          · rename_i tv htv
            simp only [Except.ok.injEq, Prod.mk.injEq, Option.some.injEq] at h
            refine ⟨py_strip (drop_chars ("每".length) (py_lower (py_strip t0))), rt, ?_, ?_, ?_⟩
            · simp [recurrence_expr_of, hsplit, hstart]
            · exact parse_str_to_time_dparse env _ rt hrt
            · rw [← h.2.2]
    · rw [if_neg hstart] at h
      split at h
      · simp at h
      · simp at h

theorem sort_room_reminders_room (room_id : String) (kind : Reminder → TriggerKind)
    (l : List Reminder) (r : Reminder) :
    (r ∈ (sort_room_reminders room_id kind l).1 ∨
     r ∈ (sort_room_reminders room_id kind l).2.1 ∨
     r ∈ (sort_room_reminders room_id kind l).2.2) →
    r.room_id = room_id := by
  induction l with
  | nil =>
    intro h
    simp [sort_room_reminders] at h
  | cons q rest ih =>
    intro h
    by_cases hq : q.room_id = room_id
    · cases hkind : kind q with
      | date =>
        simp only [sort_room_reminders, hq, ne_eq, not_true_eq_false, if_false, hkind] at h
        rcases h with h | h | h
        · rcases List.mem_cons.mp h with h | h
          · rw [h]
            exact hq
          · exact ih (Or.inl h)
        · exact ih (Or.inr (Or.inl h))
        · exact ih (Or.inr (Or.inr h))
      | interval =>
        simp only [sort_room_reminders, hq, ne_eq, not_true_eq_false, if_false, hkind] at h
        rcases h with h | h | h
        · exact ih (Or.inl h)
        · rcases List.mem_cons.mp h with h | h
          · rw [h]
            exact hq
          · exact ih (Or.inr (Or.inl h))
        · exact ih (Or.inr (Or.inr h))
      | cron =>
        simp only [sort_room_reminders, hq, ne_eq, not_true_eq_false, if_false, hkind] at h
        rcases h with h | h | h
        · exact ih (Or.inl h)
        · exact ih (Or.inr (Or.inl h))
        · rcases List.mem_cons.mp h with h | h
          · rw [h]
            exact hq
          · exact ih (Or.inr (Or.inr h))
    · simp only [sort_room_reminders, ne_eq, hq, not_false_eq_true, if_true] at h
      exact ih h

/-! ### Claims -/

/-- C1 (amended): `_parse_str_to_time` rejects with the past-time
`CommandError` exactly the resolved instants strictly earlier than the
current time (line 81 compares with `<`); an instant exactly equal to
`now` is accepted and returned, not rejected. -/
theorem C1_strict_past_rejection (env : BotEnv) (s : String) (t : Int)
    (h : env.dparse s = some t) :
    (t < env.now → parse_str_to_time env s = .error (CommandError.pastTime s)) ∧
    (env.now ≤ t → parse_str_to_time env s = .ok t) := by
  constructor
  · intro hlt
    unfold parse_str_to_time
    rw [h]
    simp [hlt]
  · intro hle
    unfold parse_str_to_time
    rw [h]
    simp [not_lt.mpr hle]

/-- C1 witness: in `env_past_future` (now = 100) the expression
resolving to 5 is rejected as past and the one resolving to 500 is
returned. -/
theorem C1_strict_past_rejection_witness :
    parse_str_to_time env_past_future "past" = .error (CommandError.pastTime "past") ∧
    parse_str_to_time env_past_future "future" = .ok 500 :=
  ⟨(C1_strict_past_rejection env_past_future "past" 5 (by decide)).1 (by decide),
   (C1_strict_past_rejection env_past_future "future" 500 (by decide)).2 (by decide)⟩

/-- C1 counterexample: in `env_now_equal` the expression `"now"`
resolves to an instant equal to the current time (`100 ≤ 100`), yet
`_parse_str_to_time` returns the instant instead of failing with the
past-time error — the claim's "less than or equal" and "an instant
exactly equal to now is rejected" do not hold of the code. -/
theorem C1_counterexample :
    env_now_equal.dparse "now" = some 100 ∧
    (100 : Int) ≤ env_now_equal.now ∧
    parse_str_to_time env_now_equal "now" = .ok 100 ∧
    parse_str_to_time env_now_equal "now" ≠ .error (CommandError.pastTime "now") := by
  exact ⟨rfl, by decide, rfl, fun hc => nomatch hc⟩

/-- C2: with a reminder text whose key `(room_id, text.upper())` has no
entry in `ALARMS` at all, `_silence` crashes: `ALARMS.get(...)` yields
`None` and the `.alarm_job` attribute access on line 377 raises
`AttributeError` before any user-facing message can be produced.  The
distinct known-but-not-firing response is only reachable when the key is
present in `ALARMS` with `alarm_job = None`, as the second conjunct
shows. -/
theorem C2_crash_on_unknown_alarm :
    silence "!room:x" ["X"] [] [] [] = .error PyError.attributeError ∧
    silence "!room:x" ["X"] [(("!room:x", "X"), reminder_x)]
        [(("!room:x", "X"), reminder_x)] [] =
      .ok ([(("!room:x", "X"), reminder_x)], [], SilenceMessage.notFiring "X") := by
  constructor
  · rfl
  · rfl

/-- C10: when the normalized key `(room_id, reminder_text.upper())` of a
create request already exists in `REMINDERS`, `_remind` sends only the
duplicate message and leaves every piece of state unchanged: no
`Reminder` is recorded, no job is armed, nothing is written to the
store, and the `REMINDERS` map is not modified. -/
theorem C10_duplicate_atomic (env : BotEnv) (room_id : String) (args : List String)
    (target : Option String) (alarm : Bool) (st : RemindState) (p : ParsedRemind)
    (hp : remind_parse env args = .ok p)
    (hdup : py_dict_contains st.reminders (room_id, py_upper p.reminder_text) = true) :
    remind env room_id args target alarm st =
      .ok { reminders := st.reminders, jobs := st.jobs, store := st.store,
            messages := st.messages ++ [RoomMessage.duplicateReminder] } := by
  unfold remind
  rw [hp]
  simp [hdup]

/-- C10 witness: creating `alpha; Buy Milk` in a state already holding
the key `("!r", "BUY MILK")` only appends the duplicate message. -/
theorem C10_duplicate_atomic_witness :
    remind env_alpha "!r" ["alpha;", "Buy", "Milk"] none false state_after_create =
      .ok { reminders := state_after_create.reminders, jobs := state_after_create.jobs,
            store := state_after_create.store,
            messages := state_after_create.messages ++ [RoomMessage.duplicateReminder] } :=
  C10_duplicate_atomic env_alpha "!r" ["alpha;", "Buy", "Milk"] none false
    state_after_create ⟨none, some 50, "Buy Milk", none⟩ (by decide) (by decide)

/-- C3: two create requests in the same room whose parsed reminder texts
agree after upper-casing: whatever the first request did (created, or was
itself a duplicate), the second request is rejected as a duplicate — it
only appends the duplicate message and changes nothing else. -/
theorem C3_duplicate_rejected (env : BotEnv) (room_id : String)
    (args1 args2 : List String) (tg1 tg2 : Option String) (al1 al2 : Bool)
    (st st1 : RemindState) (p1 p2 : ParsedRemind)
    (h1 : remind_parse env args1 = .ok p1)
    (h2 : remind_parse env args2 = .ok p2)
    (heq : py_upper p2.reminder_text = py_upper p1.reminder_text)
    (hrun : remind env room_id args1 tg1 al1 st = .ok st1) :
    remind env room_id args2 tg2 al2 st1 =
      .ok { reminders := st1.reminders, jobs := st1.jobs, store := st1.store,
            messages := st1.messages ++ [RoomMessage.duplicateReminder] } := by
  have hcontains :
      py_dict_contains st1.reminders (room_id, py_upper p1.reminder_text) = true := by
    unfold remind at hrun
    rw [h1] at hrun
    by_cases hd : py_dict_contains st.reminders (room_id, py_upper p1.reminder_text) = true
    · simp only [hd, if_true] at hrun
      simp only [Except.ok.injEq] at hrun
      rw [← hrun]
      exact hd
    · rw [Bool.not_eq_true] at hd
      simp only [hd, Bool.false_eq_true, if_false] at hrun
      simp only [Except.ok.injEq] at hrun
      rw [← hrun]
      exact py_dict_contains_set_self st.reminders _ _
  unfold remind
  rw [h2]
  simp [heq, hcontains]

/-- C3 witness: creating `alpha; Buy Milk` and then `alpha; buy MILK`
(same text up to casing) in room `!r` rejects the second as a
duplicate. -/
theorem C3_duplicate_rejected_witness :
    remind env_alpha "!r" ["alpha;", "buy", "MILK"] none false state_after_create =
      .ok { reminders := state_after_create.reminders, jobs := state_after_create.jobs,
            store := state_after_create.store,
            messages := state_after_create.messages ++ [RoomMessage.duplicateReminder] } :=
  C3_duplicate_rejected env_alpha "!r" ["alpha;", "Buy", "Milk"] ["alpha;", "buy", "MILK"]
    none none false false ⟨[], [], [], []⟩ state_after_create
    ⟨none, some 50, "Buy Milk", none⟩ ⟨none, some 50, "buy MILK", none⟩
    (by decide) (by decide) (by decide) (by decide)

/-- C4: when `_parse_reminder_command_args` returns a recurring result,
the recurrence delta equals the resolved instant of the recurrence
expression minus the current time (lines 182-188); in particular, when
the recurrence expression is `"1 week"` and the resolver maps it to
`now + 604800` (7 days ahead of now, whatever weekday now is), the delta
is exactly 7×24×3600 = 604800 seconds. -/
theorem C4_recurrence_interval :
    (∀ (env : BotEnv) (args : List String) (time : Int) (txt : String) (d : Int),
      parse_reminder_command_args env args = .ok (time, txt, some d) →
      ∃ s r, recurrence_expr_of args = some s ∧ env.dparse s = some r ∧
        d = r - env.now) ∧
    (∀ (env : BotEnv) (args : List String) (time : Int) (txt : String) (d : Int),
      recurrence_expr_of args = some "1 week" →
      env.dparse "1 week" = some (env.now + 604800) →
      parse_reminder_command_args env args = .ok (time, txt, some d) →
      d = 604800) := by
  constructor
  · exact recurrence_delta_eq
  · intro env args time txt d hrec hweek h
    obtain ⟨s, r, hs, hr, hd⟩ := recurrence_delta_eq env args time txt d h
    rw [hrec] at hs
    have hs' : s = "1 week" := by
      exact (Option.some.inj hs).symm
    rw [hs', hweek] at hr
    have hr' : r = env.now + 604800 := (Option.some.inj hr).symm
    rw [hd, hr']
    ring

/-- C4 witness: under `env_one_week` (now = 0, `"1 week"` resolving
604800 seconds ahead) the recurring command
`每1 week; monday; hello` parses with delta exactly 604800. -/
theorem C4_recurrence_interval_witness :
    parse_reminder_command_args env_one_week ["每1", "week;", "monday;", "hello"] =
      .ok (1000, "hello", some 604800) ∧ (604800 : Int) = 604800 :=
  ⟨by decide,
   C4_recurrence_interval.2 env_one_week ["每1", "week;", "monday;", "hello"]
     1000 "hello" 604800 (by decide) (by decide) (by decide)⟩

/-- C5: a command body whose first token lower-cases to `cron` takes the
cron route: the remaining tokens joined with spaces are split on the
first `;` into the cron expression and the trimmed reminder text, and a
body with no `;` fails with `CommandSyntaxError`. -/
theorem C5_cron_route (env : BotEnv) (c0 : String) (rest : List String)
    (h : py_lower c0 = "cron") :
    remind_parse env (c0 :: rest) =
      match split_once ';' (py_join_space rest) with
      | none => .error CommandError.synError
      | some (cron_tab, reminder_text) =>
        .ok ⟨some cron_tab, none, py_strip reminder_text, none⟩ := by
  have hstart : py_startswith (py_lower (py_join_space (c0 :: rest))) "cron" = true := by
    cases rest with
    | nil =>
      show py_startswith (py_lower c0) "cron" = true
      rw [h]
      decide
    | cons r rs =>
      show py_startswith (py_lower ((c0 ++ " ") ++ py_join_space (r :: rs))) "cron" = true
      rw [py_lower_append]
      apply py_startswith_append_left
      rw [py_lower_append, h]
      apply py_startswith_append_left
      decide
  unfold remind_parse
  rw [if_pos hstart]
  cases hsp : split_once ';' (py_join_space rest) with
  | none =>
    simp [parse_reminder_command_args_for_cron, hsp]
  | some pr =>
    obtain ⟨ct, rt⟩ := pr
    simp [parse_reminder_command_args_for_cron, hsp]

/-- C5 witness: `CRON 0 6 18 * *; hello` takes the cron route with cron
expression `0 6 18 * *` and trimmed text `hello`. -/
theorem C5_cron_route_witness :
    remind_parse env_reject ["CRON", "0", "6", "18", "*", "*;", "hello"] =
      .ok ⟨some "0 6 18 * *", none, "hello", none⟩ := by
  rw [C5_cron_route env_reject "CRON" ["0", "6", "18", "*", "*;", "hello"] (by decide)]
  decide

/-- C6 (amended): `_parse_reminder_command_args` raises
`CommandSyntaxError` when the first `;` is absent, and on a recurring
body when the recurrence time expression resolves but the second `;` is
absent; conversely a `CommandSyntaxError` only arises from a missing
`;`.  When the recurrence expression fails to resolve and the second `;`
is also missing, the time error is raised instead (the resolution on
line 182 precedes the second split on line 193). -/
theorem C6_missing_delimiters (env : BotEnv) (args : List String) :
    (split_once ';' (py_join_space args) = none →
      parse_reminder_command_args env args = .error CommandError.synError) ∧
    (∀ t0 r0 rt,
      split_once ';' (py_join_space args) = some (t0, r0) →
      py_startswith (py_lower (py_strip t0)) "每" = true →
      parse_str_to_time env
          (py_strip (drop_chars ("每".length) (py_lower (py_strip t0)))) = .ok rt →
      split_once ';' (py_strip r0) = none →
      parse_reminder_command_args env args = .error CommandError.synError) ∧
    (parse_reminder_command_args env args = .error CommandError.synError →
      split_once ';' (py_join_space args) = none ∨
      ∃ t0 r0,
        split_once ';' (py_join_space args) = some (t0, r0) ∧
        py_startswith (py_lower (py_strip t0)) "每" = true ∧
        split_once ';' (py_strip r0) = none) := by
  refine ⟨?_, ?_, ?_⟩
  · intro h
    unfold parse_reminder_command_args
    dsimp only
    rw [h]
  · intro t0 r0 rt h1 h2 h3 h4
    unfold parse_reminder_command_args
    dsimp only
    rw [h1]
    dsimp only
    rw [if_pos h2, h3, h4]
  · intro h
    unfold parse_reminder_command_args at h
    dsimp only at h
    split at h
    · rename_i hsp
      exact Or.inl hsp
    · rename_i t0 r0 hsp
      by_cases hstart : py_startswith (py_lower (py_strip t0)) "每" = true
      · rw [if_pos hstart] at h
        split at h
        · rename_i e he
          simp only [Except.error.injEq] at h
          rw [h] at he
          exact absurd he (parse_str_to_time_ne_syn env _)
        · rename_i rt hrt
          split at h
          · rename_i hsp2
            exact Or.inr ⟨t0, r0, hsp, hstart, hsp2⟩
          · rename_i t2 r2 hsp2
            split at h
            · rename_i e he
              simp only [Except.error.injEq] at h
              rw [h] at he
              exact absurd he (parse_str_to_time_ne_syn env _)
            · simp at h
      · rw [if_neg hstart] at h
        split at h
        · rename_i e he
          simp only [Except.error.injEq] at h
          rw [h] at he
          exact absurd he (parse_str_to_time_ne_syn env _)
        · simp at h

/-- C6 witness: a one-shot body with no `;` fails with
`CommandSyntaxError`, and a recurring body whose recurrence time
resolves but whose second `;` is missing also fails with
`CommandSyntaxError`. -/
theorem C6_missing_delimiters_witness :
    parse_reminder_command_args env_alpha ["alpha", "Buy"] =
      .error CommandError.synError ∧
    parse_reminder_command_args env_one_week ["每1", "week;", "monday", "hello"] =
      .error CommandError.synError :=
  ⟨(C6_missing_delimiters env_alpha ["alpha", "Buy"]).1 (by decide),
   (C6_missing_delimiters env_one_week ["每1", "week;", "monday", "hello"]).2.1
     "每1 week" " monday hello" 604800 (by decide) (by decide) (by decide) (by decide)⟩

/-- C6 counterexample: the recurring body `每1 week; monday hello` is
missing its second `;`, yet under a resolver that cannot parse
`"1 week"` the call fails with the invalid-time `CommandError`, not with
`CommandSyntaxError` — "fails with SyntaxError exactly when a required
';' delimiter is absent" does not hold of the code. -/
theorem C6_counterexample :
    py_startswith (py_lower (py_strip "每1 week")) "每" = true ∧
    split_once ';' (py_join_space ["每1", "week;", "monday", "hello"]) =
      some ("每1 week", " monday hello") ∧
    split_once ';' (py_strip " monday hello") = none ∧
    parse_reminder_command_args env_reject ["每1", "week;", "monday", "hello"] =
      .error (CommandError.invalidTime "1 week") ∧
    parse_reminder_command_args env_reject ["每1", "week;", "monday", "hello"] ≠
      .error CommandError.synError := by decide

/-- C7: an argument-less silence request in a well-formed alarm state
(`ALARMS` keys are uppercase, keys are unique, every firing alarm holds
an escalation job): when no `ALARMS` entry has the command's room as its
key, the no-alarm-firing response is produced and the state is
unchanged; otherwise exactly the first room entry in `ALARMS` iteration
order is removed — its key is no longer present, every other entry
remains, and the map shrinks by exactly one.  A repeated silence on the
resulting state silences the next firing alarm (the theorem re-applies
to the new state). -/
theorem C7_silence_roomwide (room_id : String)
    (alarms reminders : List ((String × String) × Reminder)) (sched : List Nat)
    (hup : ∀ p ∈ alarms, py_upper p.1.2 = p.1.2)
    (hnd : (alarms.map Prod.fst).Nodup)
    (hjob : ∀ p ∈ alarms, p.2.alarm_job.isSome = true) :
    (alarms.find? (fun p => decide (p.1.1 = room_id)) = none →
      silence room_id [] alarms reminders sched =
        .ok (alarms, sched, SilenceMessage.noAlarmFiringInRoom)) ∧
    (∀ k e, alarms.find? (fun p => decide (p.1.1 = room_id)) = some (k, e) →
      ∃ sched',
        silence room_id [] alarms reminders sched =
          .ok (py_dict_pop alarms k, sched',
               SilenceMessage.silenced (py_capitalize k.2)) ∧
        (∀ v, (k, v) ∉ py_dict_pop alarms k) ∧
        (∀ q ∈ alarms, q.1 ≠ k → q ∈ py_dict_pop alarms k) ∧
        (py_dict_pop alarms k).length + 1 = alarms.length) := by
  have hstep : silence room_id [] alarms reminders sched =
      (match alarms.find? (fun p => decide (p.1.1 = room_id)) with
      | some (alarm_info, entry) =>
        (match remove_and_silence_alarm room_id entry.alarm_job
            (py_capitalize alarm_info.2) alarms sched with
        | .error err => .error err
        | .ok (alarms', sched') =>
          .ok (alarms', sched', SilenceMessage.silenced (py_capitalize alarm_info.2)))
      | none => .ok (alarms, sched, SilenceMessage.noAlarmFiringInRoom)) := rfl
  constructor
  · intro h
    rw [hstep, h]
  · intro k e hfind
    obtain ⟨r, t⟩ := k
    have hkmem : ((r, t), e) ∈ alarms := List.mem_of_find?_eq_some hfind
    have hroom : r = room_id := by
      have := List.find?_some hfind
      simpa using this
    subst hroom
    have hupper : py_upper t = t := hup _ hkmem
    have hkey : py_upper (py_capitalize t) = t := by
      rw [py_upper_capitalize, hupper]
    obtain ⟨j, hj⟩ := Option.isSome_iff_exists.mp (hjob _ hkmem)
    have hj' : e.alarm_job = some j := hj
    refine ⟨if j ∈ sched then sched.erase j else sched, ?_, ?_, ?_, ?_⟩
    · rw [hstep, hfind]
      dsimp only
      simp only [remove_and_silence_alarm, hj', hkey]
      by_cases hc : j ∈ sched <;> simp [hc]
    · intro v
      exact not_mem_py_dict_pop alarms (r, t) v hnd
    · intro q hq hne
      exact mem_py_dict_pop alarms (r, t) q hne hq
    · exact py_dict_pop_length alarms (r, t) (List.mem_map_of_mem Prod.fst hkmem)

/-- C7 witness: in `alarms_two` (another room's alarm first, then two
firing alarms of room `!room:x`), an argument-less silence removes
exactly the first `!room:x` entry (`WAKE UP`) and leaves the other
entries. -/
theorem C7_silence_roomwide_witness :
    ∃ sched',
      silence "!room:x" [] alarms_two [] [7, 8] =
        .ok (py_dict_pop alarms_two ("!room:x", "WAKE UP"), sched',
             SilenceMessage.silenced (py_capitalize "WAKE UP")) ∧
      (∀ v, (("!room:x", "WAKE UP"), v) ∉
        py_dict_pop alarms_two ("!room:x", "WAKE UP")) ∧
      (∀ q ∈ alarms_two, q.1 ≠ ("!room:x", "WAKE UP") →
        q ∈ py_dict_pop alarms_two ("!room:x", "WAKE UP")) ∧
      (py_dict_pop alarms_two ("!room:x", "WAKE UP")).length + 1 =
        alarms_two.length :=
  (C7_silence_roomwide "!room:x" alarms_two [] [7, 8]
      (by decide) (by decide) (by decide)).2
    ("!room:x", "WAKE UP") alarm_wake (by decide)

/-- C8: `_remove_and_silence_alarm` with a real job handle never raises:
it always returns a new state; when the `(room_id, text.upper())` key is
no longer in `ALARMS` the pop is a benign no-op leaving `ALARMS`
unchanged, and when the scheduler no longer knows the job id the job
removal is skipped and the scheduler state is untouched. -/
theorem C8_remove_and_silence_noop (room_id : String) (jid : Nat) (text : String)
    (alarms : List ((String × String) × Reminder)) (sched : List Nat) :
    (remove_and_silence_alarm room_id (some jid) text alarms sched =
      .ok (py_dict_pop alarms (room_id, py_upper text),
           if jid ∈ sched then sched.erase jid else sched)) ∧
    (py_dict_get alarms (room_id, py_upper text) = none →
      py_dict_pop alarms (room_id, py_upper text) = alarms) ∧
    (jid ∉ sched →
      remove_and_silence_alarm room_id (some jid) text alarms sched =
        .ok (py_dict_pop alarms (room_id, py_upper text), sched)) := by
  refine ⟨?_, ?_, ?_⟩
  · by_cases hc : jid ∈ sched <;> simp [remove_and_silence_alarm, hc]
  · intro h
    exact py_dict_pop_of_get_none alarms _ h
  · intro h
    simp [remove_and_silence_alarm, h]

/-- C8 witness: silencing an alarm whose `ALARMS` entry is already gone
and whose job the scheduler no longer knows errors nowhere and changes
nothing. -/
theorem C8_remove_and_silence_noop_witness :
    py_dict_pop ([] : List ((String × String) × Reminder)) ("!room:x", py_upper "gone") = [] ∧
    remove_and_silence_alarm "!room:x" (some 7) "gone" [] [5] = .ok ([], [5]) :=
  ⟨(C8_remove_and_silence_noop "!room:x" 7 "gone" [] [5]).2.1 (by decide),
   (C8_remove_and_silence_noop "!room:x" 7 "gone" [] [5]).2.2 (by decide)⟩

/-- C9: `_list_reminders` scopes the one-shot, interval and cron
sections to reminders of the command's room, but the firing-alarms
section takes every `ALARMS` value with no room filter, so firing alarms
of other rooms appear in the listing. -/
theorem C9_listing_room_scope (room_id : String) (kind : Reminder → TriggerKind)
    (alarms reminders : List ((String × String) × Reminder)) :
    (∀ p ∈ alarms,
      p.2 ∈ (list_reminders_sections room_id kind alarms reminders).1) ∧
    (∀ r : Reminder,
      (r ∈ (list_reminders_sections room_id kind alarms reminders).2.1 ∨
       r ∈ (list_reminders_sections room_id kind alarms reminders).2.2.1 ∨
       r ∈ (list_reminders_sections room_id kind alarms reminders).2.2.2) →
      r.room_id = room_id) := by
  constructor
  · intro p hp
    exact List.mem_map_of_mem (fun q => q.2) hp
  · intro r h
    exact sort_room_reminders_room room_id kind _ r h

/-- C9 witness: the firing alarm of room `!other:x` appears in the
firing-alarms section of the listing issued in room `!room:x`, while the
reminder sections only contain reminders of `!room:x`. -/
theorem C9_listing_room_scope_witness :
    alarm_other ∈ (list_reminders_sections "!room:x" kind_by_fields
      [(("!other:x", "OTHER"), alarm_other)]
      [(("!room:x", "X"), reminder_x)]).1 ∧
    reminder_x.room_id = "!room:x" :=
  ⟨(C9_listing_room_scope "!room:x" kind_by_fields
      [(("!other:x", "OTHER"), alarm_other)] [(("!room:x", "X"), reminder_x)]).1
      (("!other:x", "OTHER"), alarm_other) (by decide),
   (C9_listing_room_scope "!room:x" kind_by_fields
      [(("!other:x", "OTHER"), alarm_other)] [(("!room:x", "X"), reminder_x)]).2
      reminder_x (Or.inl (by decide))⟩

end ReminderBot
